import Mathlib

/-!
# TutorFlow calculation core — shallow embedding

Shallow embedding of the booking / attendance / refund / settlement core of
the TutorFlow backend (`src/backend`), together with theorems settling the
frozen claims about it.

Conventions of the embedding:

* Python `int` is modelled by `Int` (or `Nat` for counts that are
  manifestly non-negative in the source); Python `//` (floor division) by
  `Int.fdiv`; Python `int(x)` applied to a non-negative number truncates
  toward zero, modelled by `pyTrunc` on `ℚ`.
* The float fee rates `0.05` / `0.03` of the source are modelled by the
  exact fractions `5/100` / `3/100`, and `int(x * rate)` by truncating
  integer division of `x * num` by `den` (`pyTruncMul`), which is exactly
  the truncation toward zero of the exact rational product.  Python
  evaluates `int(total * 0.05)` with IEEE doubles; for every amount below
  `2^52` that computation agrees with the exact value (the representation
  error of the literals is several orders of magnitude below the spacing
  of the representable results), so the exact model is faithful on the
  whole realistic input range, and in particular at every concrete input
  appearing in the claims.
* The source declares parallel string enums for the same concept in
  several layers (domain entities use lowercase values, the ORM layer and
  `AttendanceStatus` uppercase ones).  Following the data model of the
  specification (one canonical enum per concept, with the member names
  `SCHEDULED`, `COMPLETED`, … used by the spec and by
  `infrastructure/persistence/models/booking_model.py`), each concept is
  embedded as one inductive type.  Where the source compares statuses *as
  strings across two different enums* — the validation block of
  `AttendanceUseCases.mark_attendance` — the embedding performs the very
  same string comparisons via the `.value` projections, so that the
  cross-enum behaviour of the source is preserved exactly.
* Repository persistence (`find_session_by_id`, `save`, `update_session`,
  `count_no_shows_in_month`, …) has no implementation under `src/` for the
  repository port consumed by the use cases; following §6 of the
  specification it is modelled as an in-memory store: entity lists looked
  up by id, saves as pointwise replacement by id.  Values fetched by a
  dedicated query (the monthly no-show count, the tutor row) are passed to
  the embedded use case as explicit parameters.
-/

deriving instance DecidableEq for Except

namespace TutorFlow

/-! ## Enumerations (one canonical inductive per concept) -/

/-- Session status, `booking_model.SessionStatus` / spec §3. -/
inductive SessionStatus where
  | SCHEDULED
  | COMPLETED
  | CANCELLED
  | NO_SHOW
deriving DecidableEq, Repr

/-- The string value of a session status (values of the ORM enum
`infrastructure/persistence/models/booking_model.py`). -/
def SessionStatus.value : SessionStatus → String
  | .SCHEDULED => "SCHEDULED"
  | .COMPLETED => "COMPLETED"
  | .CANCELLED => "CANCELLED"
  | .NO_SHOW => "NO_SHOW"

/-- Attendance mark requested by the caller, `domain/entities/attendance.py`. -/
inductive AttendanceStatus where
  | ATTENDED
  | NO_SHOW
  | CANCELLED
deriving DecidableEq, Repr

/-- The string value of an attendance status. -/
def AttendanceStatus.value : AttendanceStatus → String
  | .ATTENDED => "ATTENDED"
  | .NO_SHOW => "NO_SHOW"
  | .CANCELLED => "CANCELLED"

/-- Booking status, spec §3 / `domain/entities/__init__.py`. -/
inductive BookingStatus where
  | PENDING
  | APPROVED
  | IN_PROGRESS
  | COMPLETED
  | CANCELLED
  | REJECTED
deriving DecidableEq, Repr

/-- Payment status, `domain/entities/__init__.py`. -/
inductive PaymentStatus where
  | PENDING
  | PAID
  | FAILED
  | REFUNDED
  | PARTIALLY_REFUNDED
deriving DecidableEq, Repr

/-- Tutor's no-show policy, `domain/value_objects/no_show_policy.py`. -/
inductive NoShowPolicy where
  | FULL_DEDUCTION
  | ONE_FREE
  | NONE
deriving DecidableEq, Repr

/-! ## Calendar dates (used by the settlement aggregator) -/

/-- A calendar date, modelling Python `datetime.date` with its
lexicographic comparison. -/
structure Date where
  year : Nat
  month : Nat
  day : Nat
deriving DecidableEq, Repr

/-- Gregorian leap-year rule (as implemented by Python `datetime`). -/
def isLeapYear (y : Nat) : Bool :=
  (y % 4 == 0 && y % 100 != 0) || y % 400 == 0

/-- Number of days of a month (as implemented by Python `datetime`). -/
def daysInMonth (y m : Nat) : Nat :=
  if m == 2 then (if isLeapYear y then 29 else 28)
  else if m == 4 || m == 6 || m == 9 || m == 11 then 30
  else 31

/-- `d - timedelta(days=1)` for a Python `date`. -/
def Date.subOneDay (d : Date) : Date :=
  if d.day > 1 then { d with day := d.day - 1 }
  else if d.month > 1 then ⟨d.year, d.month - 1, daysInMonth d.year (d.month - 1)⟩
  else ⟨d.year - 1, 12, 31⟩

/-- Lexicographic `≤` on dates (Python `date.__le__`). -/
def Date.le (a b : Date) : Bool :=
  a.year < b.year ||
    (a.year == b.year &&
      (a.month < b.month || (a.month == b.month && a.day ≤ b.day)))

/-- Lexicographic `<` on dates (Python `date.__lt__`). -/
def Date.lt (a b : Date) : Bool :=
  a.year < b.year ||
    (a.year == b.year &&
      (a.month < b.month || (a.month == b.month && a.day < b.day)))

/-- A Python `datetime`: a calendar date plus a time of day (minutes
since midnight); `datetime` values compare lexicographically on
(date, time). -/
structure PyDateTime where
  date : Date
  timeOfDay : Nat
deriving DecidableEq, Repr

/-- Lexicographic `≤` on datetimes. -/
def PyDateTime.le (a b : PyDateTime) : Bool :=
  Date.lt a.date b.date || (a.date == b.date && a.timeOfDay ≤ b.timeOfDay)

/-- A pure `date` compared against a `DateTime` column is coerced to
midnight of that day (PostgreSQL casts DATE to TIMESTAMP at 00:00;
SQLite's string comparison behaves the same way). -/
def Date.atMidnight (d : Date) : PyDateTime := ⟨d, 0⟩

/-! ## Entity records (spec §3 / `domain/entities`) -/

/-- A booking session row (`BookingSession`).  `session_date` is a
`DateTime` column, and the production write site
(`booking_repository.py:148`, `session_date=slot.date` with
`slot.date = datetime.combine(date, start_time)`) stores the slot's
start time in it, so it is modelled as a full `PyDateTime`.
`session_time` and audit fields are carried verbatim; only `status` and
the keys drive the attendance logic. -/
structure SessionRec where
  id : Nat
  bookingId : Nat
  sessionDate : PyDateTime
  sessionTime : String
  status : SessionStatus
  attendanceCheckedAt : Option Nat
  attendanceCheckedBy : Option Nat
  notes : Option String
deriving DecidableEq, Repr

/-- A booking row (`Booking`). -/
structure BookingRec where
  id : Nat
  studentId : Nat
  tutorId : Nat
  totalSessions : Int
  completedSessions : Int
  status : BookingStatus
  notes : Option String
deriving DecidableEq, Repr

/-- A tutor row as consumed by the core (spec §3/§6):
`{hourly_rate, no_show_policy, is_approved}`.  `hourly_rate` is nullable
in the source (`TutorModel.hourly_rate: Optional[int]`). -/
structure TutorRec where
  id : Nat
  hourlyRate : Option Int
  noShowPolicy : NoShowPolicy
  isApproved : Bool
deriving DecidableEq, Repr

/-- A payment row (`Payment`), restricted to the fields the refund
calculator reads.  `fee_rate` is a Python float, modelled exactly as the
fraction `feeRateNum / feeRateDen` (see the header note); the default
`0.05` is `5 / 100`. -/
structure PaymentRec where
  id : Nat
  bookingId : Nat
  amount : Int
  feeRateNum : Int
  feeRateDen : Int
  status : PaymentStatus
deriving DecidableEq, Repr

/-! ## Attendance engine state
(`application/use_cases/attendance.py` over the spec-§6 store) -/

/-- The persistent state the attendance use cases read and write:
sessions and bookings, looked up by id. -/
structure AttState where
  sessions : List SessionRec
  bookings : List BookingRec
deriving DecidableEq, Repr

/-- Python `int(a * (num/den))` for `den > 0`: truncation toward zero of
the exact rational product, computed as truncating integer division
(`Int.tdiv` rounds toward zero, as Python `int()` does). -/
def pyTruncMul (a num den : Int) : Int :=
  Int.tdiv (a * num) den

/-- The validation block of `mark_attendance` (attendance.py:68-80),
verbatim: the outer test compares the session status *string* against the
`AttendanceStatus` values, the inner one against `SessionStatus.SCHEDULED`;
the error is raised only when both memberships fail. -/
def markAttendanceStatusInvalid (s : SessionStatus) : Bool :=
  !(List.elem s.value [AttendanceStatus.ATTENDED.value,
      AttendanceStatus.NO_SHOW.value, AttendanceStatus.CANCELLED.value]) &&
  !(List.elem s.value [SessionStatus.SCHEDULED.value])

/-- `AttendanceUseCases.mark_attendance`.  `now` stands for
`datetime.utcnow()`; errors carry the `code` of the raised
`AttendanceValidationError`.  (The source's `completed_sessions is None`
guard is unreachable in the model, where the counter is an `Int`.) -/
def markAttendance (st : AttState) (sessionId : Nat)
    (status : AttendanceStatus) (checkedById : Option Nat)
    (notes : Option String) (now : Nat) :
    Except String (AttState × SessionRec) :=
  match st.sessions.find? (fun s => s.id == sessionId) with
  | none => .error "SESSION_NOT_FOUND"
  | some session =>
    match st.bookings.find? (fun b => b.id == session.bookingId) with
    | none => .error "BOOKING_NOT_FOUND"
    | some booking =>
      if markAttendanceStatusInvalid session.status then
        .error "INVALID_SESSION_STATUS"
      else
        let upd :
            SessionRec × BookingRec :=
          match status with
          | .ATTENDED =>
              ({ session with status := .COMPLETED },
               { booking with completedSessions := booking.completedSessions + 1 })
          | .NO_SHOW => ({ session with status := .NO_SHOW }, booking)
          | .CANCELLED => ({ session with status := .CANCELLED }, booking)
        let session2 : SessionRec :=
          { upd.1 with attendanceCheckedAt := some now,
                       attendanceCheckedBy := checkedById,
                       notes := notes }
        let booking2 : BookingRec := upd.2
        -- update_session / save
        let sessions1 := st.sessions.map
          (fun s => if s.id == sessionId then session2 else s)
        let bookings1 := st.bookings.map
          (fun b => if b.id == booking2.id then booking2 else b)
        let st1 : AttState := { sessions := sessions1, bookings := bookings1 }
        -- "Update booking status if all sessions are completed"
        if booking2.completedSessions ≥ booking2.totalSessions then
          let booking3 : BookingRec := { booking2 with status := .COMPLETED }
          let bookings2 := st1.bookings.map
            (fun b => if b.id == booking3.id then booking3 else b)
          .ok ({ st1 with bookings := bookings2 }, session2)
        else
          .ok (st1, session2)

/-- `NoShowPolicyConfig.is_billable_on_no_show`
(`domain/value_objects/no_show_policy.py`). -/
def isBillableOnNoShow (policy : NoShowPolicy)
    (monthlyNoShowCount : Int) (isFirstNoShowOfMonth : Bool) : Bool :=
  match policy with
  | .FULL_DEDUCTION => true
  | .ONE_FREE => !isFirstNoShowOfMonth
  | .NONE => false

/-- `NoShowPolicyConfig.get_free_no_show_allowance`. -/
def getFreeNoShowAllowance (policy : NoShowPolicy) : Int :=
  match policy with
  | .FULL_DEDUCTION => 0
  | .ONE_FREE => 1
  | .NONE => -1

/-- `AttendanceUseCases.handle_no_show`.  `tutors` stands for the tutor
lookup and `monthlyNoShowCount` for the result of
`count_no_shows_in_month` (the pre-existing count for the
(tutor, student, current month) triple, exclusive of this event), both
repository queries per spec §6. -/
def handleNoShow (st : AttState) (tutors : List TutorRec)
    (sessionId : Nat) (checkedById : Option Nat) (notes : Option String)
    (now : Nat) (monthlyNoShowCount : Nat) :
    Except String (AttState × SessionRec × Bool) :=
  match st.sessions.find? (fun s => s.id == sessionId) with
  | none => .error "SESSION_NOT_FOUND"
  | some session =>
    match st.bookings.find? (fun b => b.id == session.bookingId) with
    | none => .error "BOOKING_NOT_FOUND"
    | some booking =>
      match tutors.find? (fun t => t.id == booking.tutorId) with
      | none => .error "TUTOR_NOT_FOUND"
      | some tutor =>
        let isFirstOfMonth : Bool := monthlyNoShowCount == 0
        let isBillable : Bool :=
          isBillableOnNoShow tutor.noShowPolicy
            ((monthlyNoShowCount : Int) + 1)  -- include current no-show
            isFirstOfMonth
        match markAttendance st sessionId .NO_SHOW checkedById notes now with
        | .error e => .error e
        | .ok (st2, session2) => .ok (st2, session2, isBillable)

/-- `AttendanceUseCases.auto_mark_attendance_deadline`: marks each session
found past its deadline as ATTENDED with a system tag.  `sessionIds`
stands for the result of `find_sessions_past_deadline` (spec §6). -/
def autoMarkAttendanceDeadline (st : AttState) (sessionIds : List Nat)
    (now : Nat) : Except String (AttState × List SessionRec) :=
  match sessionIds with
  | [] => .ok (st, [])
  | sid :: rest =>
    match markAttendance st sid .ATTENDED none
        (some "Auto-marked: Attendance deadline passed") now with
    | .error e => .error e
    | .ok (st1, s) =>
      match autoMarkAttendanceDeadline st1 rest now with
      | .error e => .error e
      | .ok (st2, ss) => .ok (st2, s :: ss)

/-! ## Booking lifecycle (`application/use_cases/booking.py`) -/

/-- `BookingUseCases.approve_booking`. -/
def approveBooking (st : AttState) (bookingId tutorId : Nat) :
    Except String (AttState × BookingRec) :=
  match st.bookings.find? (fun b => b.id == bookingId) with
  | none => .error "BOOKING_NOT_FOUND"
  | some booking =>
    if booking.tutorId ≠ tutorId then .error "NOT_AUTHORIZED"
    else if booking.status ≠ .PENDING then .error "INVALID_STATUS"
    else
      let booking2 : BookingRec := { booking with status := .APPROVED }
      let bookings2 := st.bookings.map
        (fun b => if b.id == booking2.id then booking2 else b)
      .ok ({ st with bookings := bookings2 }, booking2)

/-- `BookingUseCases.reject_booking` (notes prepend, then save). -/
def rejectBooking (st : AttState) (bookingId tutorId : Nat)
    (reason : Option String) : Except String (AttState × BookingRec) :=
  match st.bookings.find? (fun b => b.id == bookingId) with
  | none => .error "BOOKING_NOT_FOUND"
  | some booking =>
    if booking.tutorId ≠ tutorId then .error "NOT_AUTHORIZED"
    else if booking.status ≠ .PENDING then .error "INVALID_STATUS"
    else
      let booking2 : BookingRec :=
        { booking with
            status := .REJECTED,
            notes := some ("[REJECTED] " ++ reason.getD "No reason provided"
              ++ "\n" ++ (booking.notes.getD "")) }
      let bookings2 := st.bookings.map
        (fun b => if b.id == booking2.id then booking2 else b)
      .ok ({ st with bookings := bookings2 }, booking2)

/-- `BookingUseCases.cancel_booking`. -/
def cancelBooking (st : AttState) (bookingId userId : Nat)
    (isTutor : Bool) : Except String (AttState × BookingRec) :=
  match st.bookings.find? (fun b => b.id == bookingId) with
  | none => .error "BOOKING_NOT_FOUND"
  | some booking =>
    if isTutor then
      if booking.tutorId ≠ userId then .error "NOT_AUTHORIZED"
      else cancelBookingGuarded st booking
    else
      if booking.studentId ≠ userId then .error "NOT_AUTHORIZED"
      else cancelBookingGuarded st booking
where
  /-- The status guard and transition shared by both authorization arms. -/
  cancelBookingGuarded (st : AttState) (booking : BookingRec) :
      Except String (AttState × BookingRec) :=
    if !(List.elem booking.status [BookingStatus.PENDING, BookingStatus.APPROVED]) then
      .error "INVALID_STATUS"
    else
      let booking2 : BookingRec := { booking with status := .CANCELLED }
      let bookings2 := st.bookings.map
        (fun b => if b.id == booking2.id then booking2 else b)
      .ok ({ st with bookings := bookings2 }, booking2)

/-! ## Schedule value objects (`domain/value_objects/schedule.py`) -/

/-- A time range within a day; times are minutes since midnight
(`datetime.time` values compare like these numbers).  The source's
constructor rejects `start_time ≥ end_time`; validity is tracked by
`TimeRange.valid`. -/
structure TimeRange where
  startTime : Nat
  endTime : Nat
deriving DecidableEq, Repr

/-- The `__post_init__` constraint of `TimeRange`. -/
def TimeRange.valid (r : TimeRange) : Bool :=
  r.startTime < r.endTime

/-- `TimeRange.overlaps` — half-open interval semantics. -/
def TimeRange.overlaps (a other : TimeRange) : Bool :=
  !(a.endTime ≤ other.startTime || a.startTime ≥ other.endTime)

/-- `ScheduleSlot`.  Its `date` is a `datetime`, and the API layer builds
it as `datetime.combine(date, start_time)`, so the time part carries the
slot's start time. -/
structure ScheduleSlot where
  date : PyDateTime
  timeRange : TimeRange
deriving DecidableEq, Repr

/-- `find_schedule_conflicts`: for each new slot, scan the existing slots
and append the new slot on the first one with an equal `date` value and an
overlapping time range (inner loop with `break`). -/
def findScheduleConflicts (existingSlots newSlots : List ScheduleSlot) :
    List ScheduleSlot :=
  match newSlots with
  | [] => []
  | n :: rest =>
    if existingSlots.any
        (fun e => n.date == e.date && n.timeRange.overlaps e.timeRange) then
      n :: findScheduleConflicts existingSlots rest
    else
      findScheduleConflicts existingSlots rest

/-! ## Refund calculator (`application/use_cases/refund.py`) -/

/-- `RefundBreakdown`, restricted to its numeric fields.  The
presentation-only fields (`policy_description`, `breakdown_items` — Korean
label strings built from these same numbers) are not modelled; no claim
concerns them. -/
structure RefundBreakdown where
  totalPaid : Int
  totalSessions : Int
  completedSessions : Int
  noShowCount : Int
  billableNoShowCount : Int
  remainingSessions : Int
  sessionRate : Int
  completedSessionCost : Int
  noShowCost : Int
  refundableSessions : Int
  refundAmount : Int
  platformFeeRefund : Int
  pgFee : Int
  finalRefund : Int
deriving DecidableEq, Repr

/-- `CalculateRefundUseCase._calculate_billable_no_shows`.
`monthlyNoShowCount` stands for the repository's
`count_no_shows_in_month(tutor, student, current month)` (spec §6), which
the ONE_FREE branch consults. -/
def calculateBillableNoShows (sessions : List SessionRec)
    (noShowPolicy : NoShowPolicy) (monthlyNoShowCount : Int) : Int :=
  let noShowCount : Int :=
    ((sessions.countP (fun s => s.status == SessionStatus.NO_SHOW)) : Int)
  match noShowPolicy with
  | .FULL_DEDUCTION => noShowCount
  | .ONE_FREE =>
      -- "If this is the first no-show, it's free"
      if monthlyNoShowCount ≤ 1 then max 0 (noShowCount - 1)
      else noShowCount
  | .NONE => 0

/-- `CalculateRefundUseCase._calculate_refund_breakdown`.  Python `//`
is floor division (`Int.fdiv`); `int(refund_amount * fee_rate)` truncates
toward zero (`pyTrunc`). -/
def calculateRefundBreakdown (booking : BookingRec) (payment : PaymentRec)
    (sessions : List SessionRec) (noShowPolicy : NoShowPolicy)
    (monthlyNoShowCount : Int) : RefundBreakdown :=
  let totalPaid := payment.amount
  let totalSessions := booking.totalSessions
  let completedSessions := booking.completedSessions
  let noShowCount : Int :=
    ((sessions.countP (fun s => s.status == SessionStatus.NO_SHOW)) : Int)
  let cancelledCount : Int :=
    ((sessions.countP (fun s => s.status == SessionStatus.CANCELLED)) : Int)
  let billableNoShowCount :=
    calculateBillableNoShows sessions noShowPolicy monthlyNoShowCount
  let sessionRate : Int :=
    if totalSessions > 0 then Int.fdiv totalPaid totalSessions else 0
  let completedSessionCost := completedSessions * sessionRate
  let noShowCost := billableNoShowCount * sessionRate
  let remainingSessions :=
    totalSessions - completedSessions - noShowCount - cancelledCount
  let nonBillableNoShows := noShowCount - billableNoShowCount
  let refundableSessions := remainingSessions + nonBillableNoShows
  let refundAmount := refundableSessions * sessionRate
  -- platform_fee_refund = int(refund_amount * payment.fee_rate)
  let platformFeeRefund :=
    pyTruncMul refundAmount payment.feeRateNum payment.feeRateDen
  let pgFee : Int := 0
  let finalRefund := refundAmount
  { totalPaid := totalPaid,
    totalSessions := totalSessions,
    completedSessions := completedSessions,
    noShowCount := noShowCount,
    billableNoShowCount := billableNoShowCount,
    remainingSessions := remainingSessions,
    sessionRate := sessionRate,
    completedSessionCost := completedSessionCost,
    noShowCost := noShowCost,
    refundableSessions := refundableSessions,
    refundAmount := refundAmount,
    platformFeeRefund := platformFeeRefund,
    pgFee := pgFee,
    finalRefund := finalRefund }

/-- `CalculateRefundUseCase.execute` over the spec-§6 stores: bookings and
payments looked up by (booking) id, `list_sessions` as a filter over the
session store, the tutor lookup by id. -/
def executeRefund (bookings : List BookingRec) (payments : List PaymentRec)
    (tutors : List TutorRec) (sessions : List SessionRec)
    (monthlyNoShowCount : Int) (bookingId : Nat) :
    Except String RefundBreakdown :=
  match bookings.find? (fun b => b.id == bookingId) with
  | none => .error "BOOKING_NOT_FOUND"
  | some booking =>
    match payments.find? (fun p => p.bookingId == bookingId) with
    | none => .error "PAYMENT_NOT_FOUND"
    | some payment =>
      if payment.status ≠ PaymentStatus.PAID then .error "PAYMENT_NOT_PAID"
      else
        let bookingSessions :=
          sessions.filter (fun s => s.bookingId == bookingId)
        match tutors.find? (fun t => t.id == booking.tutorId) with
        | none => .error "TUTOR_NOT_FOUND"
        | some tutor =>
          .ok (calculateRefundBreakdown booking payment bookingSessions
            tutor.noShowPolicy monthlyNoShowCount)

/-! ## Settlement aggregator (`application/use_cases/settlement.py`,
`tasks/settlement/monthly_settlement_use_case.py`) -/

/-- A settlement row.  The `"YYYY-MM"` string is modelled by the
`(year, month)` pair it is parsed into (`map(int, year_month.split("-"))`). -/
structure SettlementRec where
  tutorId : Nat
  year : Nat
  month : Nat
  totalSessions : Nat
  totalAmount : Int
  platformFee : Int
  pgFee : Int
  netAmount : Int
  isPaid : Bool
deriving DecidableEq, Repr

/-- `PLATFORM_FEE_RATE = 0.05` as the exact fraction (5, 100). -/
def PLATFORM_FEE_RATE : Int × Int := (5, 100)

/-- `PG_FEE_RATE = 0.03` as the exact fraction (3, 100). -/
def PG_FEE_RATE : Int × Int := (3, 100)

/-- The per-tutor completed-session count of `_calculate_tutor_revenue`'s
SQL query: sessions joined to a booking of the tutor, with
`month_start <= session_date <= month_end`, session status COMPLETED and
booking status APPROVED / IN_PROGRESS / COMPLETED.  The bounds are pure
dates coerced to midnight, while the `session_date` column holds a full
datetime (date plus start time), so the comparison cuts the last day of
the range off after 00:00. -/
def tutorSessionCount (bookings : List BookingRec)
    (sessions : List SessionRec) (tutorId : Nat)
    (monthStart monthEnd : Date) : Nat :=
  sessions.countP (fun s =>
    (bookings.any (fun b => b.id == s.bookingId && b.tutorId == tutorId &&
      List.elem b.status [BookingStatus.APPROVED, BookingStatus.IN_PROGRESS,
        BookingStatus.COMPLETED])) &&
    PyDateTime.le (Date.atMidnight monthStart) s.sessionDate &&
    PyDateTime.le s.sessionDate (Date.atMidnight monthEnd) &&
    s.status == SessionStatus.COMPLETED)

/-- `month_start` for a parsed `"YYYY-MM"`. -/
def monthStartDate (year month : Nat) : Date := ⟨year, month, 1⟩

/-- `month_end`: `date(y+1, 1, 1) - 1 day` for December, otherwise
`date(y, m+1, 1) - 1 day`. -/
def monthEndDate (year month : Nat) : Date :=
  if month == 12 then Date.subOneDay ⟨year + 1, 1, 1⟩
  else Date.subOneDay ⟨year, month + 1, 1⟩

/-- Per-tutor revenue, `total_amount = (hourly_rate or 0) * session_count`. -/
def tutorRevenueAmount (t : TutorRec) (bookings : List BookingRec)
    (sessions : List SessionRec) (monthStart monthEnd : Date) : Int :=
  (t.hourlyRate.getD 0) *
    (tutorSessionCount bookings sessions t.id monthStart monthEnd : Int)

/-- The settlement record built by `calculate_monthly_settlement` for a
tutor (fees via `int(total * rate)`, `net = total - platform - pg`,
`is_paid=False`). -/
def settlementFor (t : TutorRec) (bookings : List BookingRec)
    (sessions : List SessionRec) (year month : Nat) : SettlementRec :=
  let monthStart := monthStartDate year month
  let monthEnd := monthEndDate year month
  let totalSessions := tutorSessionCount bookings sessions t.id monthStart monthEnd
  let totalAmount := tutorRevenueAmount t bookings sessions monthStart monthEnd
  -- platform_fee = int(total * 0.05), pg_fee = int(total * 0.03)
  let platformFee := pyTruncMul totalAmount PLATFORM_FEE_RATE.1 PLATFORM_FEE_RATE.2
  let pgFee := pyTruncMul totalAmount PG_FEE_RATE.1 PG_FEE_RATE.2
  { tutorId := t.id,
    year := year,
    month := month,
    totalSessions := totalSessions,
    totalAmount := totalAmount,
    platformFee := platformFee,
    pgFee := pgFee,
    netAmount := totalAmount - platformFee - pgFee,
    isPaid := false }

/-- `CalculateSettlementUseCase.calculate_monthly_settlement`: fails with
`ValueError` when the tutor has no completed sessions in the month
(`tutor_id not in tutor_revenue`), otherwise computes and saves the
settlement. -/
def calculateMonthlySettlement (t : TutorRec) (bookings : List BookingRec)
    (sessions : List SessionRec) (year month : Nat) :
    Except String SettlementRec :=
  if tutorSessionCount bookings sessions t.id
      (monthStartDate year month) (monthEndDate year month) == 0 then
    .error "NO_COMPLETED_SESSIONS"
  else
    .ok (settlementFor t bookings sessions year month)

/-- `_get_existing_settlement` as a store query: does a settlement for
`(tutor_id, year_month)` exist? -/
def hasSettlement (store : List SettlementRec) (tutorId year month : Nat) :
    Bool :=
  store.any (fun s => s.tutorId == tutorId && s.year == year && s.month == month)

/-- The per-tutor loop of `calculate_all_tutors_settlement`: skip-and-fail
on an existing settlement, otherwise create and count as processed.
The store is threaded because each created settlement is flushed before
the next duplicate check. -/
def settlementLoop (revenueTutors : List TutorRec)
    (bookings : List BookingRec) (sessions : List SessionRec)
    (year month : Nat) (store : List SettlementRec)
    (processed failed : Nat) : List SettlementRec × Nat × Nat :=
  match revenueTutors with
  | [] => (store, processed, failed)
  | t :: rest =>
    if hasSettlement store t.id year month then
      settlementLoop rest bookings sessions year month store processed (failed + 1)
    else
      settlementLoop rest bookings sessions year month
        (store ++ [settlementFor t bookings sessions year month])
        (processed + 1) failed

/-- `CalculateSettlementUseCase.calculate_all_tutors_settlement`: iterate
over the tutors having revenue in the month (the keys of the grouped
query) and run the loop with both counters at 0.  (For a tutor present in
the revenue dict, `calculate_monthly_settlement` cannot raise its
`ValueError`, so the `except` branch of the source is unreachable.) -/
def calculateAllTutorsSettlement (tutors : List TutorRec)
    (bookings : List BookingRec) (sessions : List SessionRec)
    (store : List SettlementRec) (year month : Nat) :
    List SettlementRec × Nat × Nat :=
  let revenueTutors := tutors.filter (fun t =>
    tutorSessionCount bookings sessions t.id
      (monthStartDate year month) (monthEndDate year month) > 0)
  settlementLoop revenueTutors bookings sessions year month store 0 0

/-! ## Success-shape projections of `mark_attendance`
(used to state its elimination lemma) -/

/-- The session record as left by a successful `mark_attendance`:
status per the requested mark, audit fields stamped. -/
def markedSession (session : SessionRec) (status : AttendanceStatus)
    (checkedById : Option Nat) (notes : Option String) (now : Nat) :
    SessionRec :=
  match status with
  | .ATTENDED =>
      { session with status := .COMPLETED, attendanceCheckedAt := some now,
                     attendanceCheckedBy := checkedById, notes := notes }
  | .NO_SHOW =>
      { session with status := .NO_SHOW, attendanceCheckedAt := some now,
                     attendanceCheckedBy := checkedById, notes := notes }
  | .CANCELLED =>
      { session with status := .CANCELLED, attendanceCheckedAt := some now,
                     attendanceCheckedBy := checkedById, notes := notes }

/-- The booking's counter update of a successful `mark_attendance`. -/
def markedBooking (booking : BookingRec) (status : AttendanceStatus) :
    BookingRec :=
  match status with
  | .ATTENDED =>
      { booking with completedSessions := booking.completedSessions + 1 }
  | .NO_SHOW => booking
  | .CANCELLED => booking

/-- The completion step: booking status becomes COMPLETED whenever
`completed_sessions ≥ total_sessions`. -/
def finalizedBooking (b : BookingRec) : BookingRec :=
  if b.completedSessions ≥ b.totalSessions then { b with status := .COMPLETED }
  else b

/-! ## Spec-side definitions (for refinement comparisons) -/

/-- Modelled from the spec: the §4.3 booking state-machine edge table —
PENDING→APPROVED, PENDING→REJECTED, PENDING|APPROVED→CANCELLED,
APPROVED→IN_PROGRESS (the §4.3 chain), APPROVED/IN_PROGRESS→COMPLETED. -/
def specAllowedEdge : BookingStatus → BookingStatus → Bool
  | .PENDING, .APPROVED => true
  | .PENDING, .REJECTED => true
  | .PENDING, .CANCELLED => true
  | .APPROVED, .CANCELLED => true
  | .APPROVED, .IN_PROGRESS => true
  | .APPROVED, .COMPLETED => true
  | .IN_PROGRESS, .COMPLETED => true
  | _, _ => false

/-- Modelled from the spec: the settlement session count as worded by
§4.6 and the claim — COMPLETED sessions *in the calendar month*
`(year, month)` whose booking has status APPROVED, IN_PROGRESS or
COMPLETED.  (The source filters by the date range
`[month_start, month_end]` instead; the two agree on valid dates.) -/
def specMonthlyCompletedCount (bookings : List BookingRec)
    (sessions : List SessionRec) (tutorId : Nat) (year month : Nat) : Nat :=
  sessions.countP (fun s =>
    (bookings.any (fun b => b.id == s.bookingId && b.tutorId == tutorId &&
      List.elem b.status [BookingStatus.APPROVED, BookingStatus.IN_PROGRESS,
        BookingStatus.COMPLETED])) &&
    (s.sessionDate.date.year == year) && (s.sessionDate.date.month == month)
    && s.status == SessionStatus.COMPLETED)

/-! ## The attendance progress invariant (spec §3 / §8) -/

/-- Number of COMPLETED sessions of a booking in the store. -/
def bookingCompletedCount (st : AttState) (bookingId : Nat) : Nat :=
  st.sessions.countP (fun s =>
    s.bookingId == bookingId && s.status == SessionStatus.COMPLETED)

/-- Number of sessions of a booking in the store. -/
def bookingSessionTotal (st : AttState) (bookingId : Nat) : Nat :=
  st.sessions.countP (fun s => s.bookingId == bookingId)

/-- The store invariant relating each booking's counters to its sessions:
unique ids, `completed_sessions` equal to the number of COMPLETED
sessions, and `total_sessions` equal to the number of sessions (bookings
are created with `total_sessions = len(slots)` and one SCHEDULED session
per slot, so the invariant holds at creation). -/
def AttInv (st : AttState) : Prop :=
  (st.sessions.map SessionRec.id).Nodup ∧
  (st.bookings.map BookingRec.id).Nodup ∧
  ∀ b ∈ st.bookings,
    b.completedSessions = (bookingCompletedCount st b.id : Int) ∧
    b.totalSessions = (bookingSessionTotal st b.id : Int)

instance (st : AttState) : Decidable (AttInv st) := by
  unfold AttInv; infer_instance

/-! ## Concrete instances used by counterexamples and witnesses -/

/-- A session record with given id, booking 1, March 2024 date. -/
def mkSession (i : Nat) (status : SessionStatus) : SessionRec :=
  ⟨i, 1, ⟨⟨2024, 3, i⟩, 600⟩, "10:00", status, none, none, none⟩

/-- Store with one NO_SHOW session (booking APPROVED, 0/2 completed). -/
def stNoShow : AttState :=
  ⟨[mkSession 1 .NO_SHOW], [⟨1, 100, 200, 2, 0, .APPROVED, none⟩]⟩

/-- Store with one SCHEDULED session on a CANCELLED single-session
booking. -/
def stCancelledBooking : AttState :=
  ⟨[mkSession 1 .SCHEDULED], [⟨1, 100, 200, 1, 0, .CANCELLED, none⟩]⟩

/-- Store with two SCHEDULED sessions on a PENDING booking (0/2). -/
def stPending : AttState :=
  ⟨[mkSession 1 .SCHEDULED, mkSession 2 .SCHEDULED],
   [⟨1, 100, 200, 2, 0, .PENDING, none⟩]⟩

/-- The booking of the C4 refund example: 4 sessions, 1 completed. -/
def refundBooking : BookingRec := ⟨1, 100, 200, 4, 1, .APPROVED, none⟩

/-- The PAID payment of the C4 refund example: 200,000 KRW, fee rate
0.05 (= 5/100). -/
def refundPayment : PaymentRec := ⟨1, 1, 200000, 5, 100, .PAID⟩

/-- The sessions of the C4 refund example: one completed, one no-show,
two scheduled, no cancelled. -/
def refundSessions : List SessionRec :=
  [mkSession 1 .COMPLETED, mkSession 2 .NO_SHOW,
   mkSession 3 .SCHEDULED, mkSession 4 .SCHEDULED]

/-- The FULL_DEDUCTION tutor of the C4 refund example. -/
def refundTutor : TutorRec := ⟨200, some 50000, .FULL_DEDUCTION, true⟩

/-- The C8 settlement example tutor: hourly rate 40,000 KRW. -/
def settleTutor : TutorRec := ⟨7, some 40000, .FULL_DEDUCTION, true⟩

/-- The C8 settlement example booking (status COMPLETED, allowed by the
settlement filter). -/
def settleBooking : BookingRec := ⟨2, 100, 7, 10, 10, .COMPLETED, none⟩

/-- The C8 settlement example sessions: 10 COMPLETED sessions in
March 2024. -/
def settleSessions : List SessionRec :=
  (List.range 10).map (fun i => ⟨i + 1, 2, ⟨⟨2024, 3, i + 1⟩, 600⟩,
    "10:00", .COMPLETED, none, none, none⟩)

/-- A COMPLETED session of `settleBooking` stored on the last day of
March 2024 with a 10:00 start time, i.e. a `session_date` of
2024-03-31 10:00 (booking_repository.py combines the date with the
slot's start time). -/
def lateSession : SessionRec :=
  ⟨99, 2, ⟨⟨2024, 3, 31⟩, 600⟩, "10:00", .COMPLETED, none, none, none⟩

/-- The result state of marking session 1 of `stPending` as attended
(used by the C1 witness). -/
def stPendingMarked : AttState :=
  ⟨[⟨1, 1, ⟨⟨2024, 3, 1⟩, 600⟩, "10:00", .COMPLETED, some 0, some 9,
      none⟩,
    mkSession 2 .SCHEDULED],
   [⟨1, 100, 200, 2, 1, .PENDING, none⟩]⟩

/-- The marked session returned for `stPendingMarked`. -/
def stPendingMarkedSession : SessionRec :=
  ⟨1, 1, ⟨⟨2024, 3, 1⟩, 600⟩, "10:00", .COMPLETED, some 0, some 9, none⟩

/-- The settlement produced on the C8 example. -/
def settleResult : SettlementRec :=
  ⟨7, 2024, 3, 10, 400000, 20000, 12000, 368000, false⟩

/-- An existing slot starting 10:00 (600 min) on 2024-03-01. -/
def slotExisting : ScheduleSlot := ⟨⟨⟨2024, 3, 1⟩, 600⟩, ⟨600, 660⟩⟩

/-- A new slot starting 10:30 on the same calendar date, overlapping
10:00–11:00. -/
def slotNew : ScheduleSlot := ⟨⟨⟨2024, 3, 1⟩, 630⟩, ⟨630, 690⟩⟩

/-! # Theorems -/

/-! ## Helper lemmas on keyed updates of stores -/

section StoreLemmas

variable {α : Type}

/-- Updating at a key absent from the list is the identity. -/
theorem map_update_of_key_not_mem (key : α → Nat) (k : Nat) (b : α)
    (l : List α) (h : k ∉ l.map key) :
    l.map (fun x => if key x == k then b else x) = l := by
  induction l with
  | nil => rfl
  | cons x xs ih =>
    simp only [List.map_cons, List.mem_cons, not_or] at h
    have hx : (key x == k) = false := by
      simp only [beq_eq_false_iff_ne, ne_eq]
      exact fun e => h.1 e.symm
    simp only [List.map_cons, hx, Bool.false_eq_true, if_false, ih h.2]

/-- A keyed update does not change the key column when the new value
carries the key. -/
theorem map_key_update (key : α → Nat) (k : Nat) (b : α) (hb : key b = k)
    (l : List α) :
    (l.map (fun x => if key x == k then b else x)).map key = l.map key := by
  rw [List.map_map]
  apply List.map_congr_left
  intro x _
  by_cases h : key x = k
  · simp [Function.comp, h, hb]
  · simp [Function.comp, h]

/-- Two successive updates at the same key collapse to the second. -/
theorem map_update_update (key : α → Nat) (k : Nat) (b c : α)
    (hb : key b = k) (l : List α) :
    ((l.map (fun x => if key x == k then b else x)).map
        (fun x => if key x == k then c else x))
      = l.map (fun x => if key x == k then c else x) := by
  rw [List.map_map]
  apply List.map_congr_left
  intro x _
  by_cases h : key x = k
  · simp [Function.comp, h, hb]
  · simp [Function.comp, h]

/-- Effect of a keyed update on `countP`, when keys are unique: the count
loses the old element's contribution and gains the new one's. -/
theorem countP_map_update (p : α → Bool) (key : α → Nat) (k : Nat)
    (l : List α) (a b : α) (hn : (l.map key).Nodup) (ha : a ∈ l)
    (hak : key a = k) :
    (l.map (fun x => if key x == k then b else x)).countP p
        + (if p a then 1 else 0)
      = l.countP p + (if p b then 1 else 0) := by
  induction l with
  | nil => cases ha
  | cons x xs ih =>
    simp only [List.map_cons, List.nodup_cons] at hn
    obtain ⟨hx, hxs⟩ := hn
    rcases List.mem_cons.mp ha with rfl | ha'
    · -- head case: the head is `a` itself; the tail holds no key `k`
      have hk_not : k ∉ xs.map key := by rwa [hak] at hx
      have htail : xs.map (fun y => if key y == k then b else y) = xs :=
        map_update_of_key_not_mem key k b xs hk_not
      rw [List.map_cons, if_pos (by simp [hak]), htail, List.countP_cons,
        List.countP_cons]
      omega
    · -- the head keeps its place; recurse on the tail
      have hmem : key a ∈ xs.map key := List.mem_map.mpr ⟨a, ha', rfl⟩
      have hne : ¬((key x == k) = true) := by
        simp only [beq_iff_eq]
        intro e
        exact hx (by rw [e, ← hak]; exact hmem)
      rw [List.map_cons, if_neg hne, List.countP_cons, List.countP_cons]
      have hrec := ih hxs ha'
      omega

end StoreLemmas

/-! ## The elimination lemma for successful `mark_attendance` -/

/-- `markAttendanceStatusInvalid` holds exactly for COMPLETED sessions:
NO_SHOW and CANCELLED match the `AttendanceStatus` value strings of the
outer test and escape the SCHEDULED check. -/
theorem markAttendanceStatusInvalid_iff (s : SessionStatus) :
    markAttendanceStatusInvalid s = false ↔ s ≠ SessionStatus.COMPLETED := by
  cases s <;> simp [markAttendanceStatusInvalid, SessionStatus.value,
    AttendanceStatus.value]

/-- Success shape of `mark_attendance`: the session and its booking were
found, the status validation passed, the returned session is
`markedSession`, and the store holds the updated session and the
(counter-updated, possibly completed) booking, each replaced at its id. -/
theorem markAttendance_ok_elim {st : AttState} {sid : Nat}
    {status : AttendanceStatus} {cb : Option Nat} {nts : Option String}
    {now : Nat} {st2 : AttState} {s2 : SessionRec}
    (h : markAttendance st sid status cb nts now = .ok (st2, s2)) :
    ∃ session booking,
      st.sessions.find? (fun s => s.id == sid) = some session ∧
      st.bookings.find? (fun b => b.id == session.bookingId) = some booking ∧
      markAttendanceStatusInvalid session.status = false ∧
      s2 = markedSession session status cb nts now ∧
      st2 = ⟨st.sessions.map (fun s => if s.id == sid then s2 else s),
             st.bookings.map (fun b =>
               if b.id == booking.id then
                 finalizedBooking (markedBooking booking status)
               else b)⟩ := by
  unfold markAttendance at h
  split at h
  · exact Except.noConfusion h
  next session hfind =>
    split at h
    · exact Except.noConfusion h
    next booking hfindb =>
      split at h
      next hinv => exact Except.noConfusion h
      next hinv =>
        refine ⟨session, booking, hfind, hfindb, by simpa using hinv, ?_⟩
        cases status <;>
        · dsimp only at h
          split at h <;>
          next hthr =>
          · injection h with h'
            injection h' with hA hB
            subst hA
            subst hB
            refine ⟨rfl, ?_⟩
            refine congrArg (AttState.mk _) ?_
            first
            | (rw [List.map_map]
               apply List.map_congr_left
               intro b _
               by_cases hid : b.id = booking.id <;>
                 simp [Function.comp, hid, markedBooking, finalizedBooking,
                   hthr])
            | (apply List.map_congr_left
               intro b _
               by_cases hid : b.id = booking.id <;>
                 simp [Function.comp, hid, markedBooking, finalizedBooking,
                   hthr])

/-! ## Projection facts about the marked records -/

theorem markedSession_id (s : SessionRec) (st : AttendanceStatus)
    (cb : Option Nat) (nts : Option String) (now : Nat) :
    (markedSession s st cb nts now).id = s.id := by cases st <;> rfl

theorem markedSession_bookingId (s : SessionRec) (st : AttendanceStatus)
    (cb : Option Nat) (nts : Option String) (now : Nat) :
    (markedSession s st cb nts now).bookingId = s.bookingId := by
  cases st <;> rfl

theorem markedBooking_id (b : BookingRec) (st : AttendanceStatus) :
    (markedBooking b st).id = b.id := by cases st <;> rfl

theorem markedBooking_totalSessions (b : BookingRec) (st : AttendanceStatus) :
    (markedBooking b st).totalSessions = b.totalSessions := by
  cases st <;> rfl

theorem finalizedBooking_id (b : BookingRec) :
    (finalizedBooking b).id = b.id := by
  unfold finalizedBooking; split <;> rfl

theorem finalizedBooking_completedSessions (b : BookingRec) :
    (finalizedBooking b).completedSessions = b.completedSessions := by
  unfold finalizedBooking; split <;> rfl

theorem finalizedBooking_totalSessions (b : BookingRec) :
    (finalizedBooking b).totalSessions = b.totalSessions := by
  unfold finalizedBooking; split <;> rfl

/-! ## Preservation of the progress invariant -/

/-- A successful `mark_attendance` preserves the store invariant. -/
theorem markAttendance_preserves_AttInv {st : AttState} {sid : Nat}
    {status : AttendanceStatus} {cb : Option Nat} {nts : Option String}
    {now : Nat} {st2 : AttState} {s2 : SessionRec} (hInv : AttInv st)
    (h : markAttendance st sid status cb nts now = .ok (st2, s2)) :
    AttInv st2 := by
  obtain ⟨session, booking, hfind, hfindb, hval, hs2, hst2⟩ :=
    markAttendance_ok_elim h
  obtain ⟨hndS, hndB, hcnt⟩ := hInv
  have hsid : session.id = sid := by
    have := List.find?_some hfind
    simpa [beq_iff_eq] using this
  have hsmem : session ∈ st.sessions := List.mem_of_find?_eq_some hfind
  have hbid : booking.id = session.bookingId := by
    have := List.find?_some hfindb
    simpa [beq_iff_eq] using this
  have hbmem : booking ∈ st.bookings := List.mem_of_find?_eq_some hfindb
  have hstatus : session.status ≠ SessionStatus.COMPLETED :=
    (markAttendanceStatusInvalid_iff _).mp hval
  have hs2id : s2.id = sid := by rw [hs2, markedSession_id, hsid]
  have hs2bid : s2.bookingId = session.bookingId := by
    rw [hs2, markedSession_bookingId]
  have hBFid : (finalizedBooking (markedBooking booking status)).id
      = booking.id := by
    rw [finalizedBooking_id, markedBooking_id]
  subst hst2
  refine ⟨?_, ?_, ?_⟩
  · show ((st.sessions.map _).map SessionRec.id).Nodup
    rw [map_key_update SessionRec.id sid s2 hs2id]
    exact hndS
  · show ((st.bookings.map _).map BookingRec.id).Nodup
    rw [map_key_update BookingRec.id booking.id _ hBFid]
    exact hndB
  · intro b' hb'
    obtain ⟨b0, hb0mem, hb0eq⟩ := List.mem_map.mp hb'
    -- the count equations induced by the session update
    have hcompEq := fun bid => countP_map_update
      (p := fun s => s.bookingId == bid && s.status == SessionStatus.COMPLETED)
      SessionRec.id sid st.sessions session s2 hndS hsmem hsid
    have htotEq := fun bid => countP_map_update
      (p := fun s => s.bookingId == bid)
      SessionRec.id sid st.sessions session s2 hndS hsmem hsid
    by_cases hid : b0.id = booking.id
    · -- the target booking
      have hb0 : b0 = booking :=
        List.inj_on_of_nodup_map hndB hb0mem hbmem (by rw [hid])
      subst hb0
      have hb'eq : b' = finalizedBooking (markedBooking b0 status) := by
        rw [← hb0eq, if_pos (by simp)]
      obtain ⟨hc, ht⟩ := hcnt b0 hb0mem
      have hcE := hcompEq b0.id
      have htE := htotEq b0.id
      have hpSessTot : (session.bookingId == b0.id) = true := by
        simp [← hbid]
      have hpS2Tot : (s2.bookingId == b0.id) = true := by
        rw [hs2bid]; exact hpSessTot
      have hpSessComp :
          (session.bookingId == b0.id
            && session.status == SessionStatus.COMPLETED) = false := by
        simp [hstatus]
      have hIf0 : (if false = true then (1 : Nat) else 0) = 0 := rfl
      have hIf1 : (if true = true then (1 : Nat) else 0) = 1 := rfl
      rw [hpSessTot] at htE
      rw [hpS2Tot] at htE
      rw [hpSessComp] at hcE
      rw [hIf1] at htE
      rw [hIf0] at hcE
      constructor
      · -- completed counter
        rw [hb'eq, hBFid]
        show (finalizedBooking (markedBooking b0 status)).completedSessions
          = (bookingCompletedCount _ b0.id : Int)
        rw [finalizedBooking_completedSessions]
        unfold bookingCompletedCount at hc ⊢
        dsimp only
        cases status
        · -- ATTENDED: the new session is COMPLETED, counter +1
          have hpS2 : (s2.bookingId == b0.id
              && s2.status == SessionStatus.COMPLETED) = true := by
            rw [Bool.and_eq_true]
            refine ⟨hpS2Tot, ?_⟩
            rw [hs2]
            simp [markedSession]
          rw [hpS2, hIf1] at hcE
          simp only [markedBooking]
          omega
        · have hpS2 : (s2.bookingId == b0.id
              && s2.status == SessionStatus.COMPLETED) = false := by
            rw [hs2]; simp [markedSession]
          rw [hpS2, hIf0] at hcE
          simp only [markedBooking]
          omega
        · have hpS2 : (s2.bookingId == b0.id
              && s2.status == SessionStatus.COMPLETED) = false := by
            rw [hs2]; simp [markedSession]
          rw [hpS2, hIf0] at hcE
          simp only [markedBooking]
          omega
      · rw [hb'eq, hBFid]
        show (finalizedBooking (markedBooking b0 status)).totalSessions
          = (bookingSessionTotal _ b0.id : Int)
        rw [finalizedBooking_totalSessions, markedBooking_totalSessions]
        unfold bookingSessionTotal at ht ⊢
        dsimp only
        omega
    · -- an unrelated booking: untouched, counts unchanged
      have hb'eq : b' = b0 := by
        rw [← hb0eq, if_neg (by simp [hid])]
      rw [hb'eq]
      obtain ⟨hc, ht⟩ := hcnt b0 hb0mem
      have hcE := hcompEq b0.id
      have htE := htotEq b0.id
      have hbne : (session.bookingId == b0.id) = false := by
        simp only [beq_eq_false_iff_ne, ne_eq, ← hbid]
        exact fun e => hid e.symm
      have hpSessComp : (session.bookingId == b0.id
          && session.status == SessionStatus.COMPLETED) = false := by
        simp [hbne]
      have hpS2Tot : (s2.bookingId == b0.id) = false := by
        rw [hs2bid]; exact hbne
      have hpS2Comp : (s2.bookingId == b0.id
          && s2.status == SessionStatus.COMPLETED) = false := by
        simp [hpS2Tot]
      have hIf0 : (if false = true then (1 : Nat) else 0) = 0 := rfl
      rw [hpSessComp, hpS2Comp] at hcE
      rw [hbne, hpS2Tot] at htE
      rw [hIf0] at hcE
      rw [hIf0] at htE
      refine ⟨?_, ?_⟩
      · unfold bookingCompletedCount at hc ⊢
        dsimp only
        omega
      · unfold bookingSessionTotal at ht ⊢
        dsimp only
        omega

/-- The invariant yields the claimed bounds. -/
theorem AttInv_bounds {st : AttState} (hInv : AttInv st) :
    ∀ b ∈ st.bookings,
      0 ≤ b.completedSessions ∧ b.completedSessions ≤ b.totalSessions := by
  intro b hb
  obtain ⟨-, -, hcnt⟩ := hInv
  obtain ⟨hc, ht⟩ := hcnt b hb
  refine ⟨by rw [hc]; exact Int.natCast_nonneg _, ?_⟩
  rw [hc, ht]
  have hle : bookingCompletedCount st b.id ≤ bookingSessionTotal st b.id := by
    unfold bookingCompletedCount bookingSessionTotal
    refine List.countP_mono_left (fun s _ hs => ?_)
    exact ((Bool.and_eq_true _ _).mp hs).1
  exact_mod_cast hle

/-- C1 — the progress invariant `0 ≤ completed_sessions ≤ total_sessions`
(together with the store facts it rests on) is preserved by every
successful `mark_attendance`, and therefore by `handle_no_show` and the
`auto_mark_attendance_deadline` batch, whose only store mutations are
their `mark_attendance` calls. -/
theorem attendance_mark_preserves_progress_invariant :
    (∀ st sid status cb nts now st2 s2,
      AttInv st → markAttendance st sid status cb nts now = .ok (st2, s2) →
      AttInv st2 ∧ ∀ b ∈ st2.bookings,
        0 ≤ b.completedSessions ∧ b.completedSessions ≤ b.totalSessions) ∧
    (∀ st tutors sid cb nts now mc st2 s2 bil,
      AttInv st → handleNoShow st tutors sid cb nts now mc
        = .ok (st2, s2, bil) →
      AttInv st2 ∧ ∀ b ∈ st2.bookings,
        0 ≤ b.completedSessions ∧ b.completedSessions ≤ b.totalSessions) ∧
    (∀ st ids now st2 ss,
      AttInv st → autoMarkAttendanceDeadline st ids now = .ok (st2, ss) →
      AttInv st2 ∧ ∀ b ∈ st2.bookings,
        0 ≤ b.completedSessions ∧ b.completedSessions ≤ b.totalSessions) := by
  refine ⟨?_, ?_, ?_⟩
  · intro st sid status cb nts now st2 s2 hInv h
    have h2 := markAttendance_preserves_AttInv hInv h
    exact ⟨h2, AttInv_bounds h2⟩
  · intro st tutors sid cb nts now mc st2 s2 bil hInv h
    unfold handleNoShow at h
    split at h
    · exact Except.noConfusion h
    next session hfind =>
      split at h
      · exact Except.noConfusion h
      next booking hfindb =>
        split at h
        · exact Except.noConfusion h
        next tutor hfindt =>
          split at h
          · exact Except.noConfusion h
          next stm sm hmark =>
            injection h with h'
            injection h' with hA hB
            subst hA
            have h2 := markAttendance_preserves_AttInv hInv hmark
            exact ⟨h2, AttInv_bounds h2⟩
  · intro st ids now
    induction ids generalizing st with
    | nil =>
      intro st2 ss hInv h
      unfold autoMarkAttendanceDeadline at h
      injection h with h'
      injection h' with hA hB
      subst hA
      exact ⟨hInv, AttInv_bounds hInv⟩
    | cons i rest ih =>
      intro st2 ss hInv h
      unfold autoMarkAttendanceDeadline at h
      split at h
      · exact Except.noConfusion h
      next st1 s1 hmark =>
        split at h
        · exact Except.noConfusion h
        next stR ssR hrest =>
          injection h with h'
          injection h' with hA hB
          subst hA
          have h1 := markAttendance_preserves_AttInv hInv hmark
          exact ih st1 stR ssR h1 hrest

/-- C1 witness: the invariant holds for the two-session PENDING store and
is preserved by marking its first session attended. -/
theorem attendance_mark_preserves_progress_invariant_witness :
    AttInv stPendingMarked ∧ ∀ b ∈ stPendingMarked.bookings,
      0 ≤ b.completedSessions ∧ b.completedSessions ≤ b.totalSessions :=
  attendance_mark_preserves_progress_invariant.1 stPending 1 .ATTENDED
    (some 9) none 0 stPendingMarked stPendingMarkedSession (by decide)
    (by decide)

/-- C2 — the claim fails on the code: `mark_attendance`'s validation
block (attendance.py:69-80) first tests the session status string against
the `AttendanceStatus` values `["ATTENDED", "NO_SHOW", "CANCELLED"]`; a
session whose status is NO_SHOW (or CANCELLED) passes that outer test, so
the inner SCHEDULED check is never reached and no
`INVALID_SESSION_STATUS` is raised: marking an already-marked NO_SHOW
session succeeds (here it is re-marked ATTENDED, incrementing the
booking's counter), although its status is not SCHEDULED. -/
theorem mark_attendance_skips_status_check_for_marked_sessions :
    ((stNoShow.sessions.find? (fun s => s.id == 1)).map SessionRec.status
      = some SessionStatus.NO_SHOW) ∧
    SessionStatus.NO_SHOW ≠ SessionStatus.SCHEDULED ∧
    markAttendanceStatusInvalid SessionStatus.NO_SHOW = false ∧
    (markAttendance stNoShow 1 .ATTENDED (some 9) none 0).toOption.isSome
      = true := by
  decide

/-- C3 counterexample — `mark_attendance` updates the booking status to
COMPLETED with no guard on the current status: marking the single session
of a CANCELLED booking as attended succeeds and moves the booking
CANCELLED→COMPLETED, an edge outside the §4.3 table, without any
`INVALID_STATUS` failure. -/
theorem booking_status_edge_violated_by_mark_attendance :
    stCancelledBooking.bookings.map BookingRec.status = [.CANCELLED] ∧
    ((markAttendance stCancelledBooking 1 .ATTENDED (some 9) none 0).toOption.map
      (fun r => r.1.bookings.map BookingRec.status) = some [.COMPLETED]) ∧
    specAllowedEdge .CANCELLED .COMPLETED = false := by
  decide

theorem markedBooking_status (b : BookingRec) (st : AttendanceStatus) :
    (markedBooking b st).status = b.status := by cases st <;> rfl

/-- C3 amended — the explicit lifecycle operations move only along the
§4.3 edges and fail `INVALID_STATUS` (raising before any write, hence
leaving the store unchanged) when the source state is not allowed:
approve and reject require PENDING, cancel requires PENDING or APPROVED.
`mark_attendance`, however, guards nothing: on success each booking
either keeps its status or jumps to COMPLETED from *any* status the
moment `completed_sessions ≥ total_sessions`. -/
theorem booking_status_transitions_characterized :
    (∀ st bid tid st2 b2, approveBooking st bid tid = .ok (st2, b2) →
      ∃ b, st.bookings.find? (fun x => x.id == bid) = some b ∧
        b.status = .PENDING ∧ b2 = { b with status := BookingStatus.APPROVED }
        ∧ specAllowedEdge b.status b2.status = true) ∧
    (∀ st bid tid b, st.bookings.find? (fun x => x.id == bid) = some b →
      b.tutorId = tid → b.status ≠ .PENDING →
      approveBooking st bid tid = .error "INVALID_STATUS") ∧
    (∀ st bid tid reason st2 b2,
      rejectBooking st bid tid reason = .ok (st2, b2) →
      ∃ b, st.bookings.find? (fun x => x.id == bid) = some b ∧
        b.status = .PENDING ∧ b2.status = BookingStatus.REJECTED ∧
        specAllowedEdge b.status b2.status = true) ∧
    (∀ st bid tid reason b,
      st.bookings.find? (fun x => x.id == bid) = some b →
      b.tutorId = tid → b.status ≠ .PENDING →
      rejectBooking st bid tid reason = .error "INVALID_STATUS") ∧
    (∀ st bid uid isTutor st2 b2,
      cancelBooking st bid uid isTutor = .ok (st2, b2) →
      ∃ b, st.bookings.find? (fun x => x.id == bid) = some b ∧
        (b.status = .PENDING ∨ b.status = .APPROVED) ∧
        b2 = { b with status := BookingStatus.CANCELLED } ∧
        specAllowedEdge b.status b2.status = true) ∧
    (∀ st bid uid isTutor b,
      st.bookings.find? (fun x => x.id == bid) = some b →
      (if isTutor then b.tutorId = uid else b.studentId = uid) →
      b.status ≠ .PENDING → b.status ≠ .APPROVED →
      cancelBooking st bid uid isTutor = .error "INVALID_STATUS") ∧
    (∀ st sid status cb nts now st2 s2,
      markAttendance st sid status cb nts now = .ok (st2, s2) →
      ∀ b2 ∈ st2.bookings, ∃ b ∈ st.bookings, b.id = b2.id ∧
        (b2.status = b.status ∨ (b2.status = BookingStatus.COMPLETED ∧
          b2.totalSessions ≤ b2.completedSessions))) := by
  refine ⟨?_, ?_, ?_, ?_, ?_, ?_, ?_⟩
  · intro st bid tid st2 b2 h
    unfold approveBooking at h
    split at h
    · exact Except.noConfusion h
    next b hfind =>
      split at h
      · exact Except.noConfusion h
      · split at h
        · exact Except.noConfusion h
        next hstat =>
          injection h with h'
          injection h' with hA hB
          refine ⟨b, hfind, not_not.mp hstat, hB.symm, ?_⟩
          rw [not_not.mp hstat, ← hB]
          rfl
  · intro st bid tid b hfind hauth hstat
    simp [approveBooking, hfind, hauth, hstat]
  · intro st bid tid reason st2 b2 h
    unfold rejectBooking at h
    split at h
    · exact Except.noConfusion h
    next b hfind =>
      split at h
      · exact Except.noConfusion h
      · split at h
        · exact Except.noConfusion h
        next hstat =>
          injection h with h'
          injection h' with hA hB
          refine ⟨b, hfind, not_not.mp hstat, by rw [← hB], ?_⟩
          rw [not_not.mp hstat, ← hB]
          rfl
  · intro st bid tid reason b hfind hauth hstat
    simp [rejectBooking, hfind, hauth, hstat]
  · intro st bid uid isTutor st2 b2 h
    unfold cancelBooking at h
    split at h
    · exact Except.noConfusion h
    next b hfind =>
      have hg : ∀ (hG : cancelBooking.cancelBookingGuarded st b = .ok (st2, b2)),
          ∃ b', st.bookings.find? (fun x => x.id == bid) = some b' ∧
            (b'.status = .PENDING ∨ b'.status = .APPROVED) ∧
            b2 = { b' with status := BookingStatus.CANCELLED } ∧
            specAllowedEdge b'.status b2.status = true := by
        intro hG
        unfold cancelBooking.cancelBookingGuarded at hG
        split at hG
        · exact Except.noConfusion hG
        next hstat =>
          injection hG with h'
          injection h' with hA hB
          rw [Bool.not_eq_true, Bool.eq_false_iff, ne_eq] at hstat
          have hmem : b.status ∈ [BookingStatus.PENDING, BookingStatus.APPROVED] := by
            by_contra hcon
            exact hstat (by simpa using hcon)
          simp only [List.mem_cons, List.mem_singleton, List.not_mem_nil,
            or_false] at hmem
          refine ⟨b, hfind, hmem, hB.symm, ?_⟩
          rcases hmem with hmem | hmem <;> rw [hmem, ← hB] <;> rfl
      split at h
      · split at h
        · exact Except.noConfusion h
        · exact hg h
      · split at h
        · exact Except.noConfusion h
        · exact hg h
  · intro st bid uid isTutor b hfind hauth hstat1 hstat2
    cases isTutor <;>
      simp_all [cancelBooking, cancelBooking.cancelBookingGuarded, hfind]
  · intro st sid status cb nts now st2 s2 h
    obtain ⟨session, booking, hfind, hfindb, hval, hs2, hst2⟩ :=
      markAttendance_ok_elim h
    have hbmem : booking ∈ st.bookings := List.mem_of_find?_eq_some hfindb
    subst hst2
    intro b2 hb2
    obtain ⟨b0, hb0mem, hb0eq⟩ := List.mem_map.mp hb2
    by_cases hid : b0.id = booking.id
    · have hb2eq : b2 = finalizedBooking (markedBooking booking status) := by
        rw [← hb0eq, if_pos (by simp [hid])]
      refine ⟨booking, hbmem, ?_, ?_⟩
      · rw [hb2eq, finalizedBooking_id, markedBooking_id]
      · rw [hb2eq]
        unfold finalizedBooking
        split
        next hthr =>
          right
          refine ⟨rfl, ?_⟩
          show (markedBooking booking status).totalSessions ≤
            (markedBooking booking status).completedSessions
          exact hthr
        next hthr =>
          left
          exact markedBooking_status booking status
    · have hb2eq : b2 = b0 := by
        rw [← hb0eq, if_neg (by simp [hid])]
      exact ⟨b0, hb0mem, by rw [hb2eq], Or.inl (by rw [hb2eq])⟩

/-- C3 witness: approving the CANCELLED booking fails `INVALID_STATUS`. -/
theorem booking_status_transitions_characterized_witness :
    approveBooking stCancelledBooking 1 200 = .error "INVALID_STATUS" :=
  booking_status_transitions_characterized.2.1 stCancelledBooking 1 200
    ⟨1, 100, 200, 1, 0, .CANCELLED, none⟩ (by decide) (by decide) (by decide)

/-- C4 — the refund calculator on the §8 example: booking of 4 sessions
with 1 completed, PAID payment of 200,000 KRW at fee rate 0.05, tutor on
FULL_DEDUCTION, sessions containing exactly one NO_SHOW and no CANCELLED:
session_rate 50,000, billable no-shows 1, remaining 2, refundable 2,
refund = final refund = 100,000, platform fee refund 5,000, pg fee 0. -/
theorem refund_full_deduction_example :
    executeRefund [refundBooking] [refundPayment] [refundTutor]
      refundSessions 1 1 =
    .ok ⟨200000, 4, 1, 1, 1, 2, 50000, 50000, 50000, 2, 100000, 5000, 0,
      100000⟩ := by
  decide

/-- C5 — the claim fails on the code: with the ONE_FREE policy, a booking
whose two NO_SHOW sessions are the only no-shows of the (tutor, student)
pair in the current month (monthly count 2), `_calculate_billable_no_shows`
returns 2 — it only grants the free no-show when the monthly count is ≤ 1
(refund.py:222) — while the §4.2 monthly rule embodied in
`is_billable_on_no_show` (and the spec's own example) bills exactly one of
the two events. -/
theorem refund_one_free_bills_all_when_monthly_count_ge_two :
    calculateBillableNoShows [mkSession 1 .NO_SHOW, mkSession 2 .NO_SHOW]
      .ONE_FREE 2 = 2 ∧
    (if isBillableOnNoShow .ONE_FREE 1 true then (1 : Nat) else 0) +
      (if isBillableOnNoShow .ONE_FREE 2 false then 1 else 0) = 1 := by
  decide

/-- C6 counterexample — `find_schedule_conflicts` compares the slots'
`date` fields, which are full `datetime` values carrying the slot's start
time (`datetime.combine(date, start_time)` at the construction site), with
`==`: two overlapping slots on the same calendar date but with different
start times compare unequal, and the conflict is not reported. -/
theorem schedule_conflict_missed_same_calendar_date :
    findScheduleConflicts [slotExisting] [slotNew] = [] ∧
    slotNew.date.date = slotExisting.date.date ∧
    slotNew.timeRange.overlaps slotExisting.timeRange = true ∧
    slotNew.date ≠ slotExisting.date := by
  decide

/-- C6 amended — `find_schedule_conflicts` returns exactly those slots of
`new` for which some slot of `existing` has an *equal `date` value* (full
datetime equality: same calendar date and same stored time of day, the
slot's start time at the construction sites) and an overlapping
`TimeRange`; and back-to-back ranges (one ending exactly where the other
starts) never overlap, in either order. -/
theorem schedule_conflicts_characterized :
    (∀ existingSlots newSlots (s : ScheduleSlot),
      s ∈ findScheduleConflicts existingSlots newSlots ↔
        s ∈ newSlots ∧ ∃ e ∈ existingSlots,
          s.date = e.date ∧ s.timeRange.overlaps e.timeRange = true) ∧
    (∀ a b : TimeRange, a.endTime = b.startTime →
      a.overlaps b = false ∧ b.overlaps a = false) := by
  have hfilter : ∀ (ex new : List ScheduleSlot),
      findScheduleConflicts ex new = new.filter (fun n =>
        ex.any (fun e => n.date == e.date
          && n.timeRange.overlaps e.timeRange)) := by
    intro ex new
    induction new with
    | nil => rfl
    | cons n rest ih =>
      simp only [findScheduleConflicts, List.filter_cons, ih]
  constructor
  · intro ex new s
    rw [hfilter, List.mem_filter]
    refine and_congr_right fun _ => ?_
    rw [List.any_eq_true]
    constructor
    · rintro ⟨e, he, hpred⟩
      obtain ⟨h1, h2⟩ := (Bool.and_eq_true _ _).mp hpred
      exact ⟨e, he, by simpa using h1, h2⟩
    · rintro ⟨e, he, h1, h2⟩
      exact ⟨e, he, (Bool.and_eq_true _ _).mpr ⟨by simpa using h1, h2⟩⟩
  · intro a b hab
    constructor
    · simp [TimeRange.overlaps, hab]
    · simp [TimeRange.overlaps, hab]

/-- C6 witness: back-to-back ranges 10:00–11:00 and 11:00–12:00 do not
overlap. -/
theorem schedule_conflicts_characterized_witness :
    TimeRange.overlaps ⟨600, 660⟩ ⟨660, 720⟩ = false ∧
    TimeRange.overlaps ⟨660, 720⟩ ⟨600, 660⟩ = false :=
  schedule_conflicts_characterized.2 ⟨600, 660⟩ ⟨660, 720⟩ (by decide)

/-- C10 amended — the refund calculation's failure modes, exhaustively:
`BOOKING_NOT_FOUND` exactly when the booking is absent,
`PAYMENT_NOT_FOUND` exactly when the booking's payment is absent,
`PAYMENT_NOT_PAID` exactly when the payment's status is not PAID,
`TUTOR_NOT_FOUND` exactly when the booking's tutor is absent; with all
four present-and-PAID, it returns the breakdown without raising. -/
theorem refund_failure_modes_characterized :
    (∀ bookings payments tutors sessions mc bid,
      bookings.find? (fun b => b.id == bid) = none →
      executeRefund bookings payments tutors sessions mc bid
        = .error "BOOKING_NOT_FOUND") ∧
    (∀ bookings payments tutors sessions mc bid b,
      bookings.find? (fun x => x.id == bid) = some b →
      payments.find? (fun p => p.bookingId == bid) = none →
      executeRefund bookings payments tutors sessions mc bid
        = .error "PAYMENT_NOT_FOUND") ∧
    (∀ bookings payments tutors sessions mc bid b p,
      bookings.find? (fun x => x.id == bid) = some b →
      payments.find? (fun x => x.bookingId == bid) = some p →
      p.status ≠ .PAID →
      executeRefund bookings payments tutors sessions mc bid
        = .error "PAYMENT_NOT_PAID") ∧
    (∀ bookings payments tutors sessions mc bid b p,
      bookings.find? (fun x => x.id == bid) = some b →
      payments.find? (fun x => x.bookingId == bid) = some p →
      p.status = .PAID →
      tutors.find? (fun t => t.id == b.tutorId) = none →
      executeRefund bookings payments tutors sessions mc bid
        = .error "TUTOR_NOT_FOUND") ∧
    (∀ bookings payments tutors sessions mc bid b p t,
      bookings.find? (fun x => x.id == bid) = some b →
      payments.find? (fun x => x.bookingId == bid) = some p →
      p.status = .PAID →
      tutors.find? (fun x => x.id == b.tutorId) = some t →
      executeRefund bookings payments tutors sessions mc bid
        = .ok (calculateRefundBreakdown b p
            (sessions.filter (fun s => s.bookingId == bid))
            t.noShowPolicy mc)) := by
  refine ⟨?_, ?_, ?_, ?_, ?_⟩
  · intro bookings payments tutors sessions mc bid h1
    simp [executeRefund, h1]
  · intro bookings payments tutors sessions mc bid b h1 h2
    simp [executeRefund, h1, h2]
  · intro bookings payments tutors sessions mc bid b p h1 h2 h3
    simp [executeRefund, h1, h2, h3]
  · intro bookings payments tutors sessions mc bid b p h1 h2 h3 h4
    simp [executeRefund, h1, h2, h3, h4]
  · intro bookings payments tutors sessions mc bid b p t h1 h2 h3 h4
    simp [executeRefund, h1, h2, h3, h4]

/-- C10 (amended) witness: with booking, PAID payment and tutor all
present, the calculation returns the breakdown. -/
theorem refund_failure_modes_characterized_witness :
    executeRefund [refundBooking] [refundPayment] [refundTutor]
      refundSessions 1 1
      = .ok (calculateRefundBreakdown refundBooking refundPayment
          (refundSessions.filter (fun s => s.bookingId == 1))
          refundTutor.noShowPolicy 1) :=
  refund_failure_modes_characterized.2.2.2.2 [refundBooking]
    [refundPayment] [refundTutor] refundSessions 1 1 refundBooking
    refundPayment refundTutor (by decide) (by decide) (by decide) (by decide)

/-- C10 counterexample — `execute` also fails with `TUTOR_NOT_FOUND`
(refund.py:96-98): for an existing booking with an existing PAID payment
but no tutor row, the calculation raises instead of returning a
breakdown, so the three listed failure modes are not exhaustive. -/
theorem refund_requires_tutor_present :
    executeRefund [refundBooking] [refundPayment] [] refundSessions 1 1 =
      .error "TUTOR_NOT_FOUND" ∧
    refundPayment.status = .PAID ∧
    refundPayment.bookingId = refundBooking.id := by
  decide

/-! ## The settlement month range cuts off the last day at midnight -/

/-- C8 — the claim says the monthly settlement counts the COMPLETED
sessions of the calendar month.  It does not: the `session_date` column
holds `datetime.combine(date, start_time)` (booking_repository.py:148),
while `get_tutor_revenue_for_month` compares it against pure dates, so
`session_date <= month_end` coerces the last day of the month to
midnight and drops every last-day session with a positive start time.
Concretely, a COMPLETED session at 2024-03-31 10:00 on tutor 7's
COMPLETED booking belongs to March by the calendar-month count, yet the
range count for March is 0 (it also fails April's range, whose lower
bound is 2024-04-01 00:00, so the session is never settled), and the
March settlement raises `NO_COMPLETED_SESSIONS` instead of totalling
40,000.  The last conjunct shows the §8 example (10 mid-month sessions)
still settles to 400,000 / 20,000 / 12,000 / 368,000 as the claim's
formula states, so only the month boundary diverges. -/
theorem monthly_settlement_drops_last_day_sessions :
    specMonthlyCompletedCount [settleBooking] [lateSession] 7 2024 3 = 1 ∧
    tutorSessionCount [settleBooking] [lateSession] 7
      (monthStartDate 2024 3) (monthEndDate 2024 3) = 0 ∧
    tutorSessionCount [settleBooking] [lateSession] 7
      (monthStartDate 2024 4) (monthEndDate 2024 4) = 0 ∧
    calculateMonthlySettlement settleTutor [settleBooking] [lateSession]
      2024 3 = .error "NO_COMPLETED_SESSIONS" ∧
    calculateMonthlySettlement settleTutor [settleBooking] settleSessions
      2024 3 = .ok ⟨7, 2024, 3, 10, 400000, 20000, 12000, 368000, false⟩
    := by
  decide

/-! ## Closed form of the settlement batch loop -/

/-- The batch loop appends exactly one settlement per revenue tutor
without a pre-existing record, counts those as processed, and counts the
duplicates as failed — provided tutor ids are unique. -/
theorem settlementLoop_spec (bookings : List BookingRec)
    (sessions : List SessionRec) (y m : Nat) :
    ∀ (rev : List TutorRec) (store : List SettlementRec) (p f : Nat),
      (rev.map TutorRec.id).Nodup →
      settlementLoop rev bookings sessions y m store p f
        = (store ++ ((rev.filter (fun t => !hasSettlement store t.id y m)).map
              (fun t => settlementFor t bookings sessions y m)),
           p + (rev.filter (fun t => !hasSettlement store t.id y m)).length,
           f + (rev.filter (fun t => hasSettlement store t.id y m)).length)
    := by
  intro rev
  induction rev with
  | nil =>
    intro store p f _
    simp [settlementLoop]
  | cons t rest ih =>
    intro store p f hnd
    simp only [List.map_cons, List.nodup_cons] at hnd
    obtain ⟨hidnot, hnd'⟩ := hnd
    unfold settlementLoop
    by_cases hdup : hasSettlement store t.id y m = true
    · rw [if_pos hdup, ih store p (f + 1) hnd']
      rw [List.filter_cons, List.filter_cons]
      rw [if_neg (by simp [hdup]), if_pos (by simp [hdup])]
      simp only [Prod.mk.injEq, List.length_cons]
      exact ⟨trivial, trivial, by omega⟩
    · have hdupf : hasSettlement store t.id y m = false :=
        Bool.eq_false_iff.mpr hdup
      rw [if_neg hdup,
        ih (store ++ [settlementFor t bookings sessions y m]) (p + 1) f hnd']
      have hkey : ∀ t' ∈ rest,
          hasSettlement (store ++ [settlementFor t bookings sessions y m])
              t'.id y m
            = hasSettlement store t'.id y m := by
        intro t' ht'
        have hne : t.id ≠ t'.id := by
          intro e
          exact hidnot (e ▸ List.mem_map.mpr ⟨t', ht', rfl⟩)
        unfold hasSettlement
        rw [List.any_append]
        have hsingle : (List.any [settlementFor t bookings sessions y m]
            (fun s => s.tutorId == t'.id && s.year == y && s.month == m))
            = false := by
          simp [settlementFor, hne]
        rw [hsingle, Bool.or_false]
      have hfR := List.filter_congr (fun t' ht' => by
        rw [hkey t' ht'] :
        ∀ t' ∈ rest, (!hasSettlement
            (store ++ [settlementFor t bookings sessions y m]) t'.id y m)
          = (!hasSettlement store t'.id y m))
      have hfR2 := List.filter_congr (fun t' ht' => hkey t' ht')
      rw [hfR, hfR2]
      rw [List.filter_cons, List.filter_cons]
      rw [if_pos (by simp [hdupf]), if_neg (by simp [hdupf])]
      simp only [Prod.mk.injEq, List.map_cons, List.length_cons]
      refine ⟨?_, by omega, trivial⟩
      rw [List.append_assoc]
      rfl

/-- C9 — the settlement batch is idempotent per (tutor, month): the run
equals the old store extended by one new settlement per revenue tutor
without an existing record (so existing records are never overwritten),
`processed` counts exactly the non-duplicates, `failed` exactly the
duplicates; a duplicate tutor's stored entries are untouched, and every
non-duplicate revenue tutor gets a settlement created. -/
theorem settlement_batch_idempotency :
    ∀ (tutors : List TutorRec) (bookings : List BookingRec)
        (sessions : List SessionRec) (store : List SettlementRec)
        (y m : Nat),
      (tutors.map TutorRec.id).Nodup →
      (calculateAllTutorsSettlement tutors bookings sessions store y m
        = (store ++ (((tutors.filter (fun t =>
              tutorSessionCount bookings sessions t.id (monthStartDate y m)
                (monthEndDate y m) > 0)).filter
              (fun t => !hasSettlement store t.id y m)).map
              (fun t => settlementFor t bookings sessions y m)),
           ((tutors.filter (fun t =>
              tutorSessionCount bookings sessions t.id (monthStartDate y m)
                (monthEndDate y m) > 0)).filter
              (fun t => !hasSettlement store t.id y m)).length,
           ((tutors.filter (fun t =>
              tutorSessionCount bookings sessions t.id (monthStartDate y m)
                (monthEndDate y m) > 0)).filter
              (fun t => hasSettlement store t.id y m)).length)) ∧
      (∀ t ∈ tutors, hasSettlement store t.id y m = true →
        (calculateAllTutorsSettlement tutors bookings sessions store
            y m).1.filter
            (fun s => s.tutorId == t.id && s.year == y && s.month == m)
          = store.filter
            (fun s => s.tutorId == t.id && s.year == y && s.month == m)) ∧
      (∀ t ∈ tutors,
        tutorSessionCount bookings sessions t.id (monthStartDate y m)
          (monthEndDate y m) > 0 →
        hasSettlement store t.id y m = false →
        hasSettlement
          (calculateAllTutorsSettlement tutors bookings sessions store
            y m).1 t.id y m = true) := by
  intro tutors bookings sessions store y m hnd
  have hndf : (((tutors.filter (fun t =>
      tutorSessionCount bookings sessions t.id (monthStartDate y m)
        (monthEndDate y m) > 0)).map TutorRec.id)).Nodup := by
    have hsub := (List.filter_sublist (l := tutors) (p := fun t =>
      decide (tutorSessionCount bookings sessions t.id (monthStartDate y m)
        (monthEndDate y m) > 0))).map TutorRec.id
    exact hnd.sublist hsub
  have hmain := settlementLoop_spec bookings sessions y m
    (tutors.filter (fun t =>
      tutorSessionCount bookings sessions t.id (monthStartDate y m)
        (monthEndDate y m) > 0)) store 0 0 hndf
  have hcalc : calculateAllTutorsSettlement tutors bookings sessions store
      y m
      = (store ++ (((tutors.filter (fun t =>
            tutorSessionCount bookings sessions t.id (monthStartDate y m)
              (monthEndDate y m) > 0)).filter
            (fun t => !hasSettlement store t.id y m)).map
            (fun t => settlementFor t bookings sessions y m)),
         ((tutors.filter (fun t =>
            tutorSessionCount bookings sessions t.id (monthStartDate y m)
              (monthEndDate y m) > 0)).filter
            (fun t => !hasSettlement store t.id y m)).length,
         ((tutors.filter (fun t =>
            tutorSessionCount bookings sessions t.id (monthStartDate y m)
              (monthEndDate y m) > 0)).filter
            (fun t => hasSettlement store t.id y m)).length) := by
    unfold calculateAllTutorsSettlement
    rw [hmain]
    simp
  refine ⟨hcalc, ?_, ?_⟩
  · intro t ht hdup
    rw [hcalc]
    show (store ++ _).filter _ = _
    rw [List.filter_append]
    have hnil : (((tutors.filter (fun t =>
        tutorSessionCount bookings sessions t.id (monthStartDate y m)
          (monthEndDate y m) > 0)).filter
        (fun t => !hasSettlement store t.id y m)).map
        (fun t => settlementFor t bookings sessions y m)).filter
        (fun s => s.tutorId == t.id && s.year == y && s.month == m)
        = [] := by
      rw [List.filter_eq_nil_iff]
      intro e he
      obtain ⟨t', ht', het⟩ := List.mem_map.mp he
      obtain ⟨ht'rev, ht'no⟩ := List.mem_filter.mp ht'
      have ht'f : hasSettlement store t'.id y m = false := by
        simpa using ht'no
      have hne : t'.id ≠ t.id := by
        intro e2
        rw [e2] at ht'f
        rw [ht'f] at hdup
        exact Bool.noConfusion hdup
      rw [← het]
      simp [settlementFor, hne]
    rw [hnil, List.append_nil]
  · intro t ht hrev hno
    rw [hcalc]
    show hasSettlement (store ++ _) t.id y m = true
    unfold hasSettlement
    rw [List.any_append]
    have hmem : settlementFor t bookings sessions y m ∈
        ((tutors.filter (fun t =>
          tutorSessionCount bookings sessions t.id (monthStartDate y m)
            (monthEndDate y m) > 0)).filter
          (fun t => !hasSettlement store t.id y m)).map
          (fun t => settlementFor t bookings sessions y m) := by
      refine List.mem_map.mpr ⟨t, ?_, rfl⟩
      refine List.mem_filter.mpr ⟨List.mem_filter.mpr ⟨ht, by simpa using hrev⟩,
        by simp [hno]⟩
    have hany : (((tutors.filter (fun t =>
        tutorSessionCount bookings sessions t.id (monthStartDate y m)
          (monthEndDate y m) > 0)).filter
        (fun t => !hasSettlement store t.id y m)).map
        (fun t => settlementFor t bookings sessions y m)).any
        (fun s => s.tutorId == t.id && s.year == y && s.month == m)
        = true := by
      refine List.any_eq_true.mpr ⟨settlementFor t bookings sessions y m,
        hmem, ?_⟩
      simp [settlementFor]
    exact (Bool.or_eq_true _ _).mpr (Or.inr hany)

/-- C9 witness: with the example settlement already stored, the batch
skips it (processed 0, failed 1) and leaves the store unchanged. -/
theorem settlement_batch_idempotency_witness :
    calculateAllTutorsSettlement [settleTutor] [settleBooking]
      settleSessions [settleResult] 2024 3 = ([settleResult], 0, 1) := by
  have h := (settlement_batch_idempotency [settleTutor] [settleBooking]
    settleSessions [settleResult] 2024 3 (by decide)).1
  rw [h]
  decide

/-- C7 — the no-show billability decision, evaluated with the inclusive
monthly count `n + 1` and `is_first_of_month = (n == 0)` exactly as
`handle_no_show` supplies them (attendance.py:157-161): FULL_DEDUCTION is
always billable, NONE never, and ONE_FREE is free precisely when the
inclusive count is 1 (the first no-show of the calendar month), billable
for every later one; and a successful `handle_no_show` returns exactly
this decision for the tutor's policy. -/
theorem no_show_billability_decision :
    (∀ n : Nat,
      isBillableOnNoShow .FULL_DEDUCTION ((n : Int) + 1) (n == 0) = true ∧
      isBillableOnNoShow .NONE ((n : Int) + 1) (n == 0) = false ∧
      (isBillableOnNoShow .ONE_FREE ((n : Int) + 1) (n == 0) = false ↔
        (n : Int) + 1 = 1)) ∧
    (∀ st tutors sid cb nts now mc out,
      handleNoShow st tutors sid cb nts now mc = .ok out →
      ∃ s b t, st.sessions.find? (fun x => x.id == sid) = some s ∧
        st.bookings.find? (fun x => x.id == s.bookingId) = some b ∧
        tutors.find? (fun x => x.id == b.tutorId) = some t ∧
        out.2.2 = isBillableOnNoShow t.noShowPolicy ((mc : Int) + 1)
          (mc == 0)) := by
  constructor
  · intro n
    refine ⟨rfl, rfl, ?_⟩
    cases n with
    | zero => simp [isBillableOnNoShow]
    | succ k =>
      simp only [isBillableOnNoShow, Nat.succ_ne_zero, beq_iff_eq,
        Bool.not_eq_false]
      constructor
      · intro h; simp at h
      · intro h; omega
  · intro st tutors sid cb nts now mc out h
    unfold handleNoShow at h
    split at h
    · exact Except.noConfusion h
    next s hs =>
      split at h
      · exact Except.noConfusion h
      next b hb =>
        split at h
        · exact Except.noConfusion h
        next t ht =>
          split at h
          · exact Except.noConfusion h
          next st2 s2 hmark =>
            injection h with h'
            subst h'
            exact ⟨s, b, t, hs, hb, ht, rfl⟩

/-- C7 witness: the theorem applied at `n = 0` — the first no-show of the
month under ONE_FREE is free. -/
theorem no_show_billability_decision_witness :
    isBillableOnNoShow .ONE_FREE (((0 : Nat) : Int) + 1) ((0 : Nat) == 0)
      = false :=
  ((no_show_billability_decision.1 0).2.2).mpr (by norm_num)

end TutorFlow
